import Mathlib

/-!
# Shallow embedding of `react-basics`

This file embeds the example components of the repository
(`src/components.js` and the second source file holding the event-handling,
lifecycle and JSX examples) into Lean 4 and proves the properties claimed
about them.

JavaScript objects are modelled as association lists from `String` to a
`Value` type; `undefined` is an explicit value, so that a missing field read
yields `Value.undefined` (as in JavaScript), and operations that would throw
(reading a field of `undefined`, spreading a non-array, arithmetic needing a
number) return `Option`.

JSX elements compile to `React.createElement` calls, as the JSX source file
itself explains; `createElement` builds an immutable `Element` descriptor
from a tag, an attribute list and a children list.  Component composition
(`<Avatar user={...} />` inside `UserInfo`) is modelled by invoking the
child component function, i.e. by the fully rendered descriptor tree.

`setState` itself is implemented by the external framework, not by this
repository; where a claim is about that framework behaviour the model is
written from the specification's words and marked `Modelled from the spec:`.
-/

/-- A JavaScript value as used by the examples: strings, numbers (the
examples only ever hold integer-valued doubles, carried here as the exact
integer value of the double; arithmetic on them rounds, see `jsAdd`),
arrays, objects, and `undefined`. -/
inductive Value where
  | undefined : Value
  | str : String → Value
  | num : Int → Value
  | list : List Value → Value
  | obj : List (String × Value) → Value

/-- A JavaScript object: an association list of fields (first occurrence of
a key wins on lookup; the example objects never carry duplicate keys). -/
abbrev Obj := List (String × Value)

/-- Field lookup in an object, `none` when the key is absent. -/
def lookupKey (k : String) : Obj → Option Value
  | [] => none
  | (k', v) :: rest => if k' = k then some v else lookupKey k rest

/-- Reading a field of an object: a missing field reads as `undefined`,
exactly as in JavaScript. -/
def getField (o : Obj) (k : String) : Value :=
  (lookupKey k o).getD .undefined

/-- Assigning one field: replaces the (first) existing entry in place,
or appends the entry when the key is new.  This is the per-key effect of
`Object.assign`. -/
def setKey : Obj → String → Value → Obj
  | [], k, v => [(k, v)]
  | (k', v') :: rest, k, v =>
    if k' = k then (k, v) :: rest else (k', v') :: setKey rest k v

/-- Shallow merge of a payload object into a state object: every entry of
the payload is assigned into the state, left to right.  This is the merge
`setState` performs ("React shallow merges your object into the current
state"). -/
def mergeState (s payload : Obj) : Obj :=
  payload.foldl (fun acc kv => setKey acc kv.1 kv.2) s

/-- Viewing a value as an object; `none` models the TypeError JavaScript
throws when a field of a non-object is accessed. -/
def asObj : Value → Option Obj
  | .obj o => some o
  | _ => none

/-- Viewing a value as an (integer) number; `none` models the non-numeric
outcomes (NaN propagation) that the examples never rely on. -/
def asInt : Value → Option Int
  | .num n => some n
  | _ => none

/-- Viewing a value as an array; `none` models the TypeError JavaScript
throws when a non-iterable is spread. -/
def asList : Value → Option (List Value)
  | .list l => some l
  | _ => none

/-- A React element descriptor: a tag (or component) name with attributes
and ordered children (`el`), a literal text child (`txt`), or an embedded
expression child `{expr}` (`val`). -/
inductive Element where
  | el : String → List (String × Value) → List Element → Element
  | txt : String → Element
  | val : Value → Element

/-- `React.createElement`: builds a fresh element descriptor from a type,
an attribute object and already-constructed children.  All JSX in the
repository compiles to this. -/
def createElement (ty : String) (attrs : List (String × Value))
    (children : List Element) : Element :=
  .el ty attrs children

/-- The type of an element descriptor (empty for text/expression nodes). -/
def Element.typeOf : Element → String
  | .el t _ _ => t
  | .txt _ => ""
  | .val _ => ""

/-- The attributes of an element descriptor. -/
def Element.attrsOf : Element → List (String × Value)
  | .el _ a _ => a
  | .txt _ => []
  | .val _ => []

/-- The children of an element descriptor. -/
def Element.childrenOf : Element → List Element
  | .el _ _ cs => cs
  | .txt _ => []
  | .val _ => []

/-! ## The components of `src/components.js` -/

/-- `function HelloWorld() { return <h1>Hello, World!</h1>; }` -/
def HelloWorld (_ : Unit) : Element :=
  createElement "h1" [] [.txt "Hello, World!"]

/-- `render()` of the class form of `HelloWorld` (equivalent to the
function component from React's point of view). -/
def HelloWorldClass.render (_ : Unit) : Element :=
  createElement "h1" [] [.txt "Hello, World!"]

/-- The first `App`: a `div` composing three `HelloWorld` children. -/
def App (_ : Unit) : Element :=
  createElement "div" [] [HelloWorld (), HelloWorld (), HelloWorld ()]

/-- `function Welcome(props) { return <h1>Hello, {props.user.first}
{props.user.last}!</h1>; }`; accessing `.first` on a non-object
`props.user` throws, hence `Option`. -/
def Welcome (props : Obj) : Option Element := do
  let user ← asObj (getField props "user")
  pure (createElement "h1" []
    [.txt "Hello, ", .val (getField user "first"), .txt " ",
     .val (getField user "last"), .txt "!"])

/-- The monolithic `Comment` component (first version, before extraction):
renders the avatar image, the author name, the text and the date inline. -/
def CommentMonolithic (props : Obj) : Option Element := do
  let author ← asObj (getField props "author")
  pure (createElement "div" [("className", .str "comment")]
    [createElement "div" [("className", .str "user-info")]
      [createElement "img"
        [("className", .str "avatar"),
         ("src", getField author "avatarUrl"),
         ("alt", getField author "name")] [],
       createElement "div" [("className", .str "user-info-name")]
         [.val (getField author "name")]],
     createElement "div" [("className", .str "comment-text")]
       [.val (getField props "text")],
     createElement "div" [("className", .str "comment-date")]
       [.val (getField props "date")]])

/-- `function Avatar(props)`: an `img` with `src={props.user.avatarUrl}`
and `alt={props.user.name}`. -/
def Avatar (props : Obj) : Option Element := do
  let user ← asObj (getField props "user")
  pure (createElement "img"
    [("className", .str "avatar"),
     ("src", getField user "avatarUrl"),
     ("alt", getField user "name")] [])

/-- `function UserInfo(props)`: composes `<Avatar user={props.user} />`
with the user-info-name `div`. -/
def UserInfo (props : Obj) : Option Element := do
  let av ← Avatar [("user", getField props "user")]
  let user ← asObj (getField props "user")
  pure (createElement "div" [("className", .str "user-info")]
    [av,
     createElement "div" [("className", .str "user-info-name")]
       [.val (getField user "name")]])

/-- The refactored `Comment` component (the final binding of the name in the
source): composes `<UserInfo user={props.author} />` with the comment-text
and comment-date `div`s. -/
def Comment (props : Obj) : Option Element := do
  let ui ← UserInfo [("user", getField props "author")]
  pure (createElement "div" [("className", .str "comment")]
    [ui,
     createElement "div" [("className", .str "comment-text")]
       [.val (getField props "text")],
     createElement "div" [("className", .str "comment-date")]
       [.val (getField props "date")]])

/-! ## State examples: `Counter` and `Example` -/

/-- The `Counter` constructor's initial state: `{ counter: 0 }`. -/
def Counter.initialState : Obj := [("counter", .num 0)]

/-- `render()` of `Counter` (first version): `<h1>{this.state.counter}</h1>`. -/
def Counter.render (state : Obj) : Element :=
  createElement "h1" [] [.val (getField state "counter")]

/-- `2 ^ 53` (written as a literal so the kernel compares it cheaply):
JavaScript numbers are IEEE-754 binary64 doubles, which represent every
integer of magnitude up to `2 ^ 53` exactly and above that only multiples
of a growing power of two. -/
def twoPow53 : Nat := 9007199254740992

/-- The gap between consecutive binary64-representable integers at
magnitude `m`: `1` below `2 ^ 53`, doubling with each further binade.
The first argument is structural-recursion fuel (`m` itself suffices,
since `m` halves at every step). -/
def ulpNat : Nat → Nat → Nat
  | 0, _ => 1
  | fuel + 1, m => if m < twoPow53 then 1 else 2 * ulpNat fuel (m / 2)

/-- Round a natural number to the nearest binary64-representable integer
(nearest multiple of its `ulpNat` gap), ties to the even multiple — IEEE
round-to-nearest-even on integer values. -/
def roundEvenNat (m : Nat) : Nat :=
  let g := ulpNat m m
  let q := m / g
  let r := m % g
  if 2 * r < g then q * g
  else if g < 2 * r then (q + 1) * g
  else if q % 2 = 0 then q * g else (q + 1) * g

/-- Round an integer to the nearest binary64-representable integer
(rounding is symmetric about zero). -/
def roundEvenInt (x : Int) : Int :=
  if x < 0 then -(roundEvenNat x.natAbs : Int) else (roundEvenNat x.natAbs : Int)

/-- JavaScript `+` on integer-valued doubles: IEEE addition is the exact
sum rounded to nearest, ties to even.  (`+ 1` on a finite double never
overflows to infinity, so no infinity case is needed.) -/
def jsAdd (a b : Int) : Int := roundEvenInt (a + b)

/-- JavaScript `-` on integer-valued doubles: the exact difference rounded
to nearest, ties to even. -/
def jsSub (a b : Int) : Int := roundEvenInt (a - b)

/-- `add()` of the event-handling `Counter`: requests the merge-update
`{ counter: this.state.counter + 1 }`, computed against the current state
with JavaScript double addition; `none` when the current counter is not a
number. -/
def Counter.add (state : Obj) : Option Obj :=
  (asInt (getField state "counter")).map fun n =>
    mergeState state [("counter", .num (jsAdd n 1))]

/-- `subtract()` of the event-handling `Counter`: requests the merge-update
`{ counter: this.state.counter - 1 }`, computed with JavaScript double
subtraction. -/
def Counter.subtract (state : Obj) : Option Obj :=
  (asInt (getField state "counter")).map fun n =>
    mergeState state [("counter", .num (jsSub n 1))]

/-- `render()` of the event-handling `Counter`: the counter paragraph plus
the two buttons wired to `add`/`subtract` (the handler attributes record the
handler names). -/
def CounterEvents.render (state : Obj) : Element :=
  createElement "div" []
    [createElement "p" [] [.val (getField state "counter")],
     createElement "button" [("onClick", .str "add")] [.txt "Add"],
     createElement "button" [("onClick", .str "subtract")] [.txt "Subtract"]]

/-- The `Example` constructor's initial state: `{ posts: [], comments: [] }`. -/
def Example.initialState : Obj := [("posts", .list []), ("comments", .list [])]

/-- `Example.addPost(post)`: requests the merge-update
`{ posts: [...this.state.posts, post] }`; `none` when `this.state.posts`
is not an array (the spread would throw). -/
def Example.addPost (post : Value) (state : Obj) : Option Obj :=
  (asList (getField state "posts")).map fun ps =>
    mergeState state [("posts", .list (ps ++ [post]))]

/-- `Example.addComment(comment)`: requests the merge-update
`{ comment: [...this.state.comments, comment] }` — the payload key is
`comment` (singular), exactly as written in the source. -/
def Example.addComment (comment : Value) (state : Obj) : Option Obj :=
  (asList (getField state "comments")).map fun cs =>
    mergeState state [("comment", .list (cs ++ [comment]))]

/-! ## State-passing transcriptions of the props-receiving components

Each `run` version threads the received props object (and the nested
objects reached from it) through the body: a field access is a `readField`,
returning the read value together with the object it leaves behind.  The
source bodies contain only reads — no assignment to any props field — so
the transcriptions use `readField` alone; `writeField` spells out what an
assignment would have been. -/

/-- A field read, as a state-passing operation on the object: yields the
value and leaves the object as it was. -/
def readField (o : Obj) (k : String) : Value × Obj :=
  ((lookupKey k o).getD .undefined, o)

/-- A field assignment, as a state-passing operation on the object; no
props-receiving component of the repository performs one. -/
def writeField (o : Obj) (k : String) (v : Value) : Obj :=
  setKey o k v

/-- State-passing `Welcome`: the body reads `props.user` (twice, for
`.first` and `.last`) and returns the element with the props object as the
body left it. -/
def Welcome.run (props : Obj) : Option Element × Obj :=
  let (user, props) := readField props "user"
  match asObj user with
  | none => (none, props)
  | some uo =>
    let (first, uo) := readField uo "first"
    let (last, _) := readField uo "last"
    (some (createElement "h1" []
      [.txt "Hello, ", .val first, .txt " ", .val last, .txt "!"]), props)

/-- State-passing monolithic `Comment`. -/
def CommentMonolithic.run (props : Obj) : Option Element × Obj :=
  let (author, props) := readField props "author"
  match asObj author with
  | none => (none, props)
  | some ao =>
    let (avatarUrl, ao) := readField ao "avatarUrl"
    let (name, ao) := readField ao "name"
    let (name2, _) := readField ao "name"
    let (text, props) := readField props "text"
    let (date, props) := readField props "date"
    (some (createElement "div" [("className", .str "comment")]
      [createElement "div" [("className", .str "user-info")]
        [createElement "img"
          [("className", .str "avatar"), ("src", avatarUrl), ("alt", name)] [],
         createElement "div" [("className", .str "user-info-name")]
           [.val name2]],
       createElement "div" [("className", .str "comment-text")] [.val text],
       createElement "div" [("className", .str "comment-date")] [.val date]]),
     props)

/-- State-passing `Avatar`. -/
def Avatar.run (props : Obj) : Option Element × Obj :=
  let (user, props) := readField props "user"
  match asObj user with
  | none => (none, props)
  | some uo =>
    let (avatarUrl, uo) := readField uo "avatarUrl"
    let (name, _) := readField uo "name"
    (some (createElement "img"
      [("className", .str "avatar"), ("src", avatarUrl), ("alt", name)] []),
     props)

/-- State-passing `UserInfo`: passes `props.user` on to `Avatar` and reads
`props.user.name`. -/
def UserInfo.run (props : Obj) : Option Element × Obj :=
  let (user, props) := readField props "user"
  let (av, _) := Avatar.run [("user", user)]
  match av, asObj user with
  | some avEl, some uo =>
    let (name, _) := readField uo "name"
    (some (createElement "div" [("className", .str "user-info")]
      [avEl,
       createElement "div" [("className", .str "user-info-name")]
         [.val name]]), props)
  | _, _ => (none, props)

/-- State-passing refactored `Comment`: passes `props.author` on to
`UserInfo` and reads `props.text` and `props.date`. -/
def Comment.run (props : Obj) : Option Element × Obj :=
  let (author, props) := readField props "author"
  let (ui, _) := UserInfo.run [("user", author)]
  match ui with
  | none => (none, props)
  | some uiEl =>
    let (text, props) := readField props "text"
    let (date, props) := readField props "date"
    (some (createElement "div" [("className", .str "comment")]
      [uiEl,
       createElement "div" [("className", .str "comment-text")] [.val text],
       createElement "div" [("className", .str "comment-date")] [.val date]]),
     props)

/-! ## The JSX examples (second source file) -/

/-- `function formatName({ first, last }) { return `first last` }` (template
string interpolation). -/
def formatName (first last : String) : String :=
  first ++ " " ++ last

/-- `const element = <h1>Hello, world!</h1>;` -/
def element : Element :=
  createElement "h1" [] [.txt "Hello, world!"]

/-- The greeting element embedding `formatName({first: 'John', last: 'Doe'})`. -/
def elementGreeting : Element :=
  createElement "h1" []
    [.txt "Hello, ", .val (.str (formatName "John" "Doe")), .txt "!"]

/-- `const element = <div tabIndex="0"></div>;` -/
def elementTabIndex : Element :=
  createElement "div" [("tabIndex", .str "0")] []

/-- The pizza example: a `div` whose children are an `h1` and a `p`. -/
def elementPizza : Element :=
  createElement "div" []
    [createElement "h1" [] [.txt "Mmm, pizza!"],
     createElement "p" [] [.txt "🍕🍕🍕"]]

/-- The second `App`: renders `<Welcome user={user} />` with
`user = { first: 'John', last: 'Doe' }`. -/
def AppWelcome (_ : Unit) : Option Element :=
  Welcome [("user", .obj [("first", .str "John"), ("last", .str "Doe")])]

/-! ## The host framework's batched `setState` (not implemented in `src/`)

`src` only *calls* `setState`; its batching semantics belongs to the
external framework.  The model below is written from the specification's
description: update requests are queued, several requests in one logical
turn are applied as a single coalesced update at flush time, and the
completion callback of each request runs only after the update has been
applied. -/

/-- Modelled from the spec: a queued `setState` request — the merge payload
and an identifier for the completion callback passed alongside it
(`this.setState({...}, () => {...})`). -/
structure PendingUpdate where
  payload : Obj
  callbackId : Nat

/-- Modelled from the spec: a component instance as the framework sees it
between turns — its applied state plus the queue of update requests not yet
applied. -/
structure BatchedInstance where
  state : Obj
  queue : List PendingUpdate

/-- Modelled from the spec: issuing a `setState(payload, callback)` request
only enqueues it; the state is not touched. -/
def setStateReq (c : BatchedInstance) (payload : Obj) (cb : Nat) :
    BatchedInstance :=
  ⟨c.state, c.queue ++ [⟨payload, cb⟩]⟩

/-- Reading `this.state` synchronously observes the applied state only. -/
def readState (c : BatchedInstance) : Obj := c.state

/-- Modelled from the spec: at the end of the logical turn the framework
flushes the queue, shallow-merging every pending payload into the state as
one applied update, and then runs each completion callback; the pairs
returned record, for each callback, the state it observes when it runs. -/
def flush (c : BatchedInstance) : BatchedInstance × List (Nat × Obj) :=
  let s := c.queue.foldl (fun acc u => mergeState acc u.payload) c.state
  (⟨s, []⟩, c.queue.map fun u => (u.callbackId, s))

/-! ## The host framework's lifecycle dispatch (not implemented in `src/`)

`src` only *declares* the lifecycle hooks (`LifecycleMethods`); when they
are invoked is the framework's affair.  The model below is written from the
specification: an instance is created on first composition into the tree,
updated whenever its props or state change (the hook receives the previous
props and previous state), and destroyed on removal from the tree with
`componentWillUnmount` running immediately before the removal. -/

/-- The lifecycle hook invocations and the removal itself, as observable
events in order. -/
inductive LifecycleEvent where
  | didMount : LifecycleEvent
  | didUpdate : Obj → Obj → LifecycleEvent
  | willUnmount : LifecycleEvent
  | removed : LifecycleEvent

/-- A mounted component instance: its current props and state. -/
structure InstanceState where
  props : Obj
  state : Obj

/-- The events the host framework feeds a component instance. -/
inductive HostEvent where
  | mount : Obj → Obj → HostEvent
  | update : Obj → Obj → HostEvent
  | unmount : HostEvent

/-- Modelled from the spec: one step of the framework's lifecycle dispatch.
`none` is "not in the tree".  Mounting installs the instance and calls
`componentDidMount`; a committed props/state change installs the new values
and calls `componentDidUpdate` with the previous props and previous state;
unmounting calls `componentWillUnmount` and then removes the instance. -/
def lifecycleStep :
    Option InstanceState → HostEvent → Option InstanceState × List LifecycleEvent
  | none, .mount p s => (some ⟨p, s⟩, [.didMount])
  | some i, .update p s => (some ⟨p, s⟩, [.didUpdate i.props i.state])
  | some _, .unmount => (none, [.willUnmount, .removed])
  | st, _ => (st, [])

/-! ## Lemmas about field assignment and shallow merge -/

theorem lookupKey_setKey_self (s : Obj) (k : String) (v : Value) :
    lookupKey k (setKey s k v) = some v := by
  induction s with
  | nil => simp [setKey, lookupKey]
  | cons kv rest ih =>
    obtain ⟨k', v'⟩ := kv
    by_cases h : k' = k
    · subst h; simp [setKey, lookupKey]
    · simp [setKey, h, lookupKey, ih]

theorem lookupKey_setKey_ne (s : Obj) (k k' : String) (v : Value)
    (h : k' ≠ k) : lookupKey k (setKey s k' v) = lookupKey k s := by
  induction s with
  | nil => simp [setKey, lookupKey, h]
  | cons kv rest ih =>
    obtain ⟨k₀, v₀⟩ := kv
    by_cases h0 : k₀ = k'
    · subst h0; simp [setKey, lookupKey, h]
    · simp [setKey, h0, lookupKey, ih]

theorem setKey_setKey (s : Obj) (k : String) (a b : Value) :
    setKey (setKey s k a) k b = setKey s k b := by
  induction s with
  | nil => simp [setKey]
  | cons kv rest ih =>
    obtain ⟨k₀, v₀⟩ := kv
    by_cases h : k₀ = k
    · subst h; simp [setKey]
    · simp [setKey, h, ih]

theorem mergeState_cons (s : Obj) (kv : String × Value) (ps : Obj) :
    mergeState s (kv :: ps) = mergeState (setKey s kv.1 kv.2) ps := rfl

theorem mergeState_single (s : Obj) (k : String) (v : Value) :
    mergeState s [(k, v)] = setKey s k v := rfl

theorem lookupKey_mergeState_of_not_mem (s payload : Obj) (k : String)
    (h : k ∉ payload.map Prod.fst) :
    lookupKey k (mergeState s payload) = lookupKey k s := by
  induction payload generalizing s with
  | nil => rfl
  | cons kv ps ih =>
    simp only [List.map_cons, List.mem_cons] at h
    push_neg at h
    rw [mergeState_cons, ih _ h.2, lookupKey_setKey_ne _ _ _ _ (Ne.symm h.1)]

theorem getField_eq_of_lookupKey {s : Obj} {k : String} {v : Value}
    (h : lookupKey k s = some v) : getField s k = v := by
  simp [getField, h]

/-! ## Inversion lemmas for the state operations -/

theorem addPost_inv {s r : Obj} {post : Value}
    (h : Example.addPost post s = some r) :
    ∃ ps, getField s "posts" = .list ps ∧
      r = setKey s "posts" (.list (ps ++ [post])) := by
  unfold Example.addPost at h
  cases hl : getField s "posts" <;> rw [hl] at h <;> simp [asList] at h
  exact ⟨_, rfl, h.symm⟩

theorem addComment_inv {s r : Obj} {c : Value}
    (h : Example.addComment c s = some r) :
    ∃ cs, getField s "comments" = .list cs ∧
      r = setKey s "comment" (.list (cs ++ [c])) := by
  unfold Example.addComment at h
  cases hl : getField s "comments" <;> rw [hl] at h <;> simp [asList] at h
  exact ⟨_, rfl, h.symm⟩

theorem twoPow53_eq : twoPow53 = 2 ^ 53 := by norm_num [twoPow53]

theorem roundEvenNat_eq_self (m : Nat) (h : m ≤ twoPow53) :
    roundEvenNat m = m := by
  rcases Nat.lt_or_eq_of_le h with h' | h'
  · have hg : ulpNat m m = 1 := by
      cases m with
      | zero => rfl
      | succ k => simp [ulpNat, h']
    simp [roundEvenNat, hg]
    intro hc
    exact absurd (Nat.mod_one m) hc
  · subst h'
    decide

theorem roundEvenInt_eq_self (x : Int) (h : x.natAbs ≤ twoPow53) :
    roundEvenInt x = x := by
  unfold roundEvenInt
  split <;> rw [roundEvenNat_eq_self _ h] <;> omega

theorem add_inv {s r : Obj} (h : Counter.add s = some r) :
    ∃ n : Int, getField s "counter" = .num n ∧
      r = setKey s "counter" (.num (jsAdd n 1)) := by
  unfold Counter.add at h
  cases hl : getField s "counter" <;> rw [hl] at h <;> simp [asInt] at h
  exact ⟨_, rfl, h.symm⟩

theorem subtract_inv {s r : Obj} (h : Counter.subtract s = some r) :
    ∃ n : Int, getField s "counter" = .num n ∧
      r = setKey s "counter" (.num (jsSub n 1)) := by
  unfold Counter.subtract at h
  cases hl : getField s "counter" <;> rw [hl] at h <;> simp [asInt] at h
  exact ⟨_, rfl, h.symm⟩

theorem addPost_eq (s : Obj) (ps : List Value) (post : Value)
    (h : getField s "posts" = .list ps) :
    Example.addPost post s = some (setKey s "posts" (.list (ps ++ [post]))) := by
  unfold Example.addPost
  rw [h]
  rfl

theorem addComment_eq (s : Obj) (cs : List Value) (c : Value)
    (h : getField s "comments" = .list cs) :
    Example.addComment c s = some (setKey s "comment" (.list (cs ++ [c]))) := by
  unfold Example.addComment
  rw [h]
  rfl

theorem add_eq (s : Obj) (n : Int) (h : getField s "counter" = .num n) :
    Counter.add s = some (setKey s "counter" (.num (jsAdd n 1))) := by
  unfold Counter.add
  rw [h]
  rfl

theorem subtract_eq (s : Obj) (n : Int) (h : getField s "counter" = .num n) :
    Counter.subtract s = some (setKey s "counter" (.num (jsSub n 1))) := by
  unfold Counter.subtract
  rw [h]
  rfl

theorem jsAdd_one_eq (n : Int) (h : (n + 1).natAbs ≤ twoPow53) :
    jsAdd n 1 = n + 1 :=
  roundEvenInt_eq_self _ h

theorem jsSub_one_eq (n : Int) (h : (n - 1).natAbs ≤ twoPow53) :
    jsSub n 1 = n - 1 :=
  roundEvenInt_eq_self _ h

/-! ## The claims -/

/-- C1: a `setState` merge-update shallow-merges the payload into the
current state, and every key absent from the payload keeps its previous
value; in particular `Example.addPost` leaves `comments` unchanged and
`Example.addComment` leaves `posts` unchanged. -/
theorem state_merge_preserves_untouched_keys :
    (∀ (s payload : Obj) (k : String), k ∉ payload.map Prod.fst →
      lookupKey k (mergeState s payload) = lookupKey k s) ∧
    (∀ (s r : Obj) (post : Value), Example.addPost post s = some r →
      lookupKey "comments" r = lookupKey "comments" s) ∧
    (∀ (s r : Obj) (c : Value), Example.addComment c s = some r →
      lookupKey "posts" r = lookupKey "posts" s) := by
  refine ⟨lookupKey_mergeState_of_not_mem, ?_, ?_⟩
  · intro s r post h
    obtain ⟨ps, _, rfl⟩ := addPost_inv h
    exact lookupKey_setKey_ne _ _ _ _ (by decide)
  · intro s r c h
    obtain ⟨cs, _, rfl⟩ := addComment_inv h
    exact lookupKey_setKey_ne _ _ _ _ (by decide)

/-- Witness for C1 at concrete inputs: merging `{a: 2}` into
`{a: 1, c: 3}` keeps `c`, `addPost 7` on the initial `Example` state keeps
`comments`, and `addComment 7` keeps `posts`. -/
theorem state_merge_preserves_untouched_keys_witness :
    lookupKey "c" (mergeState [("a", .num 1), ("c", .num 3)] [("a", .num 2)])
      = lookupKey "c" [("a", .num 1), ("c", .num 3)] ∧
    lookupKey "comments" [("posts", .list [.num 7]), ("comments", .list [])]
      = lookupKey "comments" Example.initialState ∧
    lookupKey "posts"
        [("posts", .list []), ("comments", .list []), ("comment", .list [.num 7])]
      = lookupKey "posts" Example.initialState :=
  ⟨state_merge_preserves_untouched_keys.1 _ _ "c" (by decide),
   state_merge_preserves_untouched_keys.2.1 Example.initialState _ (.num 7) rfl,
   state_merge_preserves_untouched_keys.2.2 Example.initialState _ (.num 7) rfl⟩

/-- C2: `Example.addComment(c)` leaves both `posts` and `comments`
unchanged and instead introduces a new state key `comment` (singular)
holding `comments` with `c` appended, because the payload key is `comment`
rather than `comments`. -/
theorem addComment_writes_comment_key :
    ∀ (s : Obj) (cs : List Value) (c : Value) (r : Obj),
      lookupKey "comments" s = some (.list cs) →
      lookupKey "comment" s = none →
      Example.addComment c s = some r →
      lookupKey "posts" r = lookupKey "posts" s ∧
      lookupKey "comments" r = some (.list cs) ∧
      lookupKey "comment" r = some (.list (cs ++ [c])) := by
  intro s cs c r hcs _hnew h
  rw [addComment_eq s cs c (getField_eq_of_lookupKey hcs)] at h
  obtain rfl := Option.some_inj.mp h
  exact ⟨lookupKey_setKey_ne _ _ _ _ (by decide),
    by rw [lookupKey_setKey_ne _ _ _ _ (by decide)]; exact hcs,
    lookupKey_setKey_self _ _ _⟩

/-- Witness for C2: on the initial `Example` state, `addComment 7` keeps
`posts = []` and `comments = []` and adds `comment = [7]`. -/
theorem addComment_writes_comment_key_witness :
    lookupKey "posts"
        [("posts", .list []), ("comments", .list []), ("comment", .list [.num 7])]
      = lookupKey "posts" Example.initialState ∧
    lookupKey "comments"
        [("posts", .list []), ("comments", .list []), ("comment", .list [.num 7])]
      = some (.list []) ∧
    lookupKey "comment"
        [("posts", .list []), ("comments", .list []), ("comment", .list [.num 7])]
      = some (.list [.num 7]) :=
  addComment_writes_comment_key Example.initialState [] (.num 7) _ rfl rfl rfl

/-- C3: every component's rendered element descriptor is a deterministic
(pure) function of its current props and state: equal props and equal
state give structurally equal descriptors. -/
theorem render_deterministic :
    ∀ (p₁ p₂ s₁ s₂ : Obj), p₁ = p₂ → s₁ = s₂ →
      Welcome p₁ = Welcome p₂ ∧ Comment p₁ = Comment p₂ ∧
      Avatar p₁ = Avatar p₂ ∧ UserInfo p₁ = UserInfo p₂ ∧
      Counter.render s₁ = Counter.render s₂ := by
  intro p₁ p₂ s₁ s₂ hp hs
  subst hp; subst hs
  exact ⟨rfl, rfl, rfl, rfl, rfl⟩

/-- Witness for C3: two renders of each component at equal concrete props
(the John Doe user / author) and equal concrete state agree. -/
theorem render_deterministic_witness :
    Welcome [("user", .obj [("first", .str "John"), ("last", .str "Doe")])]
      = Welcome [("user", .obj [("first", .str "John"), ("last", .str "Doe")])] ∧
    Comment [("author", .obj [("name", .str "John"), ("avatarUrl", .str "u")]),
             ("text", .str "hi"), ("date", .str "today")]
      = Comment [("author", .obj [("name", .str "John"), ("avatarUrl", .str "u")]),
             ("text", .str "hi"), ("date", .str "today")] ∧
    Counter.render Counter.initialState = Counter.render Counter.initialState :=
  ⟨(render_deterministic
      [("user", .obj [("first", .str "John"), ("last", .str "Doe")])]
      [("user", .obj [("first", .str "John"), ("last", .str "Doe")])]
      [] [] rfl rfl).1,
   (render_deterministic
      [("author", .obj [("name", .str "John"), ("avatarUrl", .str "u")]),
       ("text", .str "hi"), ("date", .str "today")]
      [("author", .obj [("name", .str "John"), ("avatarUrl", .str "u")]),
       ("text", .str "hi"), ("date", .str "today")]
      [] [] rfl rfl).2.1,
   (render_deterministic [] [] Counter.initialState Counter.initialState
      rfl rfl).2.2.2.2⟩

/-- C4: no props-receiving component mutates the props object it
receives: the state-passing transcription of each body hands the props
mapping back unchanged (every key, value and position intact). -/
theorem props_never_mutated :
    ∀ (props : Obj),
      (Welcome.run props).2 = props ∧
      (CommentMonolithic.run props).2 = props ∧
      (Avatar.run props).2 = props ∧
      (UserInfo.run props).2 = props ∧
      (Comment.run props).2 = props := by
  intro props
  refine ⟨?_, ?_, ?_, ?_, ?_⟩
  · cases hv : (lookupKey "user" props).getD Value.undefined <;>
      simp [Welcome.run, readField, hv, asObj]
  · cases hv : (lookupKey "author" props).getD Value.undefined <;>
      simp [CommentMonolithic.run, readField, hv, asObj]
  · cases hv : (lookupKey "user" props).getD Value.undefined <;>
      simp [Avatar.run, readField, hv, asObj]
  · cases hv : (lookupKey "user" props).getD Value.undefined <;>
      simp [UserInfo.run, Avatar.run, readField, hv, asObj, lookupKey]
  · cases hv : (lookupKey "author" props).getD Value.undefined <;>
      simp [Comment.run, UserInfo.run, Avatar.run, readField, hv, asObj,
        lookupKey]

/-- C5: after construction, every state change of every component goes
through a `setState` merge-update: each state-changing operation's result
is a shallow merge of some payload into the previous state (never a direct
field assignment outside the merge discipline). -/
theorem state_changes_factor_through_setState :
    (∀ (s r : Obj), Counter.add s = some r →
      ∃ payload, r = mergeState s payload) ∧
    (∀ (s r : Obj), Counter.subtract s = some r →
      ∃ payload, r = mergeState s payload) ∧
    (∀ (s r : Obj) (post : Value), Example.addPost post s = some r →
      ∃ payload, r = mergeState s payload) ∧
    (∀ (s r : Obj) (c : Value), Example.addComment c s = some r →
      ∃ payload, r = mergeState s payload) := by
  refine ⟨?_, ?_, ?_, ?_⟩
  · intro s r h
    obtain ⟨n, _, rfl⟩ := add_inv h
    exact ⟨[("counter", .num (jsAdd n 1))], (mergeState_single _ _ _).symm⟩
  · intro s r h
    obtain ⟨n, _, rfl⟩ := subtract_inv h
    exact ⟨[("counter", .num (jsSub n 1))], (mergeState_single _ _ _).symm⟩
  · intro s r post h
    obtain ⟨ps, _, rfl⟩ := addPost_inv h
    exact ⟨[("posts", .list (ps ++ [post]))], (mergeState_single _ _ _).symm⟩
  · intro s r c h
    obtain ⟨cs, _, rfl⟩ := addComment_inv h
    exact ⟨[("comment", .list (cs ++ [c]))], (mergeState_single _ _ _).symm⟩

/-- Witness for C5: each operation, run from its component's initial
state, lands on a state that is a merge of some payload into that state. -/
theorem state_changes_factor_through_setState_witness :
    (∃ payload, [("counter", Value.num 1)] = mergeState Counter.initialState payload) ∧
    (∃ payload, [("counter", Value.num (-1))] = mergeState Counter.initialState payload) ∧
    (∃ payload, [("posts", Value.list [.num 7]), ("comments", Value.list [])]
      = mergeState Example.initialState payload) ∧
    (∃ payload, [("posts", Value.list []), ("comments", Value.list []),
        ("comment", Value.list [.num 7])]
      = mergeState Example.initialState payload) :=
  ⟨state_changes_factor_through_setState.1 Counter.initialState _ rfl,
   state_changes_factor_through_setState.2.1 Counter.initialState _ rfl,
   state_changes_factor_through_setState.2.2.1 Example.initialState _ (.num 7) rfl,
   state_changes_factor_through_setState.2.2.2 Example.initialState _ (.num 7) rfl⟩

/-- C6: `setState` requests are asynchronous and batched: issuing a
request leaves the synchronously readable state at its pre-update value;
all requests of one logical turn are applied by the flush as one coalesced
update (equal to a single merge of the concatenated payloads); and every
completion callback observes the state only after the flush has applied
the update. -/
theorem setState_batched_async :
    (∀ (c : BatchedInstance) (p : Obj) (cb : Nat),
      readState (setStateReq c p cb) = readState c) ∧
    (∀ (s p₁ p₂ : Obj) (cb₁ cb₂ : Nat),
      (flush (setStateReq (setStateReq ⟨s, []⟩ p₁ cb₁) p₂ cb₂)).1.state
        = mergeState s (p₁ ++ p₂)) ∧
    (∀ (c : BatchedInstance) (cb : Nat) (obs : Obj),
      (cb, obs) ∈ (flush c).2 → obs = (flush c).1.state) := by
  refine ⟨fun c p cb => rfl, ?_, ?_⟩
  · intro s p₁ p₂ cb₁ cb₂
    show mergeState (mergeState s p₁) p₂ = mergeState s (p₁ ++ p₂)
    unfold mergeState
    rw [List.foldl_append]
  · intro c cb obs h
    simp only [flush, List.mem_map] at h
    obtain ⟨u, _, hu⟩ := h
    exact ((Prod.mk.injEq _ _ _ _).mp hu).2.symm

/-- Witness for C6: with one queued `{counter: 1}` request carrying
callback 0, the state callback 0 observes at flush time is the post-update
state. -/
theorem setState_batched_async_witness :
    [("counter", Value.num 1)]
      = (flush ⟨[("counter", .num 0)], [⟨[("counter", .num 1)], 0⟩]⟩).1.state :=
  setState_batched_async.2.2 ⟨[("counter", .num 0)], [⟨[("counter", .num 1)], 0⟩]⟩
    0 [("counter", Value.num 1)] (List.Mem.head _)

/-- C7: the refactored `Comment` (delegating to `UserInfo`, which
delegates to `Avatar`) renders an element descriptor structurally equal to
the monolithic `Comment`'s on every props object — in particular on every
props whose `author` carries `name` and `avatarUrl`. -/
theorem comment_refactoring_equivalent :
    ∀ props : Obj, CommentMonolithic props = Comment props := by
  intro props
  cases h : asObj ((lookupKey "author" props).getD Value.undefined) <;>
    simp [CommentMonolithic, Comment, UserInfo, Avatar, getField, lookupKey, h]

/-- Counterexample to C8 as stated: JavaScript numbers are IEEE-754
doubles, exact on integers only up to `2 ^ 53 = 9007199254740992`.  At
`counter = 2 ^ 53` the increment `2 ^ 53 + 1` is not representable and
rounds back down to `2 ^ 53`, so `add` then `subtract` lands on
`2 ^ 53 - 1`, not the original value, while `subtract` then `add` returns
to `2 ^ 53`: the round trip fails and the two updates do not commute. -/
theorem counter_add_subtract_counterexample :
    (Counter.add [("counter", Value.num 9007199254740992)]).bind Counter.subtract
      = some [("counter", Value.num 9007199254740991)] ∧
    (Counter.subtract [("counter", Value.num 9007199254740992)]).bind Counter.add
      = some [("counter", Value.num 9007199254740992)] ∧
    (Counter.add [("counter", Value.num 9007199254740992)]).bind Counter.subtract
      ≠ (Counter.subtract [("counter", Value.num 9007199254740992)]).bind Counter.add := by
  refine ⟨rfl, rfl, fun hEq => ?_⟩
  have h1 : (Counter.add [("counter", Value.num 9007199254740992)]).bind Counter.subtract
      = some [("counter", Value.num 9007199254740991)] := rfl
  have h2 : (Counter.subtract [("counter", Value.num 9007199254740992)]).bind Counter.add
      = some [("counter", Value.num 9007199254740992)] := rfl
  rw [h1, h2] at hEq
  simp at hEq

/-- C8 (amended): a newly constructed `Counter` has `counter = 0`; from
any state whose counter is `n` with `|n| < 2 ^ 53` (the range on which
doubles are exact, so that `n`, `n + 1` and `n - 1` all carry no
rounding), the update requested by `add` followed by the one requested by
`subtract` (each computed against the then-current state) returns the
counter to `n`, and `add` and `subtract` commute.  Outside that range the
rounding of double arithmetic breaks both properties, see the
counterexample at `2 ^ 53`. -/
theorem counter_add_subtract :
    lookupKey "counter" Counter.initialState = some (.num 0) ∧
    (∀ (s : Obj) (n : Int), lookupKey "counter" s = some (.num n) →
      n.natAbs < twoPow53 →
      ∃ s₁ s₂, Counter.add s = some s₁ ∧ Counter.subtract s₁ = some s₂ ∧
        lookupKey "counter" s₂ = some (.num n)) ∧
    (∀ (s : Obj) (n : Int), lookupKey "counter" s = some (.num n) →
      n.natAbs < twoPow53 →
      (Counter.add s).bind Counter.subtract
        = (Counter.subtract s).bind Counter.add) := by
  refine ⟨rfl, ?_, ?_⟩
  · intro s n h hn
    have h1 := add_eq s n (getField_eq_of_lookupKey h)
    rw [jsAdd_one_eq n (by simp only [twoPow53] at hn ⊢; omega)] at h1
    have ha : getField (setKey s "counter" (.num (n + 1))) "counter"
        = .num (n + 1) := getField_eq_of_lookupKey (lookupKey_setKey_self _ _ _)
    have h2 := subtract_eq _ (n + 1) ha
    rw [jsSub_one_eq (n + 1) (by simp only [twoPow53] at hn ⊢; omega)] at h2
    refine ⟨_, _, h1, h2, ?_⟩
    rw [setKey_setKey, lookupKey_setKey_self]
    norm_num
  · intro s n h hn
    have hg := getField_eq_of_lookupKey h
    have h1 := add_eq s n hg
    rw [jsAdd_one_eq n (by simp only [twoPow53] at hn ⊢; omega)] at h1
    have h2 := subtract_eq s n hg
    rw [jsSub_one_eq n (by simp only [twoPow53] at hn ⊢; omega)] at h2
    have ha : getField (setKey s "counter" (.num (n + 1))) "counter"
        = .num (n + 1) := getField_eq_of_lookupKey (lookupKey_setKey_self _ _ _)
    have hb : getField (setKey s "counter" (.num (n - 1))) "counter"
        = .num (n - 1) := getField_eq_of_lookupKey (lookupKey_setKey_self _ _ _)
    have h3 := subtract_eq _ (n + 1) ha
    rw [jsSub_one_eq (n + 1) (by simp only [twoPow53] at hn ⊢; omega)] at h3
    have h4 := add_eq _ (n - 1) hb
    rw [jsAdd_one_eq (n - 1) (by simp only [twoPow53] at hn ⊢; omega)] at h4
    rw [h1, h2, Option.some_bind, Option.some_bind, h3, h4,
      setKey_setKey, setKey_setKey]
    norm_num

/-- Witness for C8 (amended): from counter 5 (inside the exact range),
`add` then `subtract` lands back on 5, and the two updates commute. -/
theorem counter_add_subtract_witness :
    (∃ s₁ s₂, Counter.add [("counter", Value.num 5)] = some s₁ ∧
      Counter.subtract s₁ = some s₂ ∧
      lookupKey "counter" s₂ = some (.num 5)) ∧
    (Counter.add [("counter", Value.num 5)]).bind Counter.subtract
      = (Counter.subtract [("counter", Value.num 5)]).bind Counter.add :=
  ⟨counter_add_subtract.2.1 [("counter", Value.num 5)] 5 rfl (by decide),
   counter_add_subtract.2.2 [("counter", Value.num 5)] 5 rfl (by decide)⟩

/-- C9: element descriptors are structurally immutable once created:
every operation of the repository only ever builds descriptors with
`createElement`, and a built descriptor holds exactly the type, attributes
and children it was constructed from — composing already-built descriptors
into a parent (as `App` composes the `HelloWorld` renders and the pizza
`div` its `h1` and `p`) embeds them unchanged. -/
theorem element_descriptors_immutable :
    (∀ (t : String) (attrs : List (String × Value)) (cs : List Element),
      (createElement t attrs cs).typeOf = t ∧
      (createElement t attrs cs).attrsOf = attrs ∧
      (createElement t attrs cs).childrenOf = cs) ∧
    (App ()).childrenOf = [HelloWorld (), HelloWorld (), HelloWorld ()] ∧
    elementPizza.childrenOf
      = [createElement "h1" [] [.txt "Mmm, pizza!"],
         createElement "p" [] [.txt "🍕🍕🍕"]] :=
  ⟨fun _ _ _ => ⟨rfl, rfl, rfl⟩, rfl, rfl⟩

/-- C10: a mounted instance hit by a props/state change is updated and
`componentDidUpdate` is invoked with the previous props and previous
state; on removal from the tree `componentWillUnmount` is invoked
immediately before the removal (it precedes the removal event), so
cleanup can run. -/
theorem lifecycle_update_unmount :
    (∀ (i : InstanceState) (p s : Obj),
      lifecycleStep (some i) (.update p s)
        = (some ⟨p, s⟩, [.didUpdate i.props i.state])) ∧
    (∀ i : InstanceState,
      lifecycleStep (some i) .unmount = (none, [.willUnmount, .removed])) :=
  ⟨fun _ _ _ => rfl, fun _ => rfl⟩
